import Mathlib

/-!
Shallow embedding of the debug renderer, the animation-signal editor command
and the asynchronous scene loading example of the Fyrox engine repository,
together with theorems settling the specification claims about them.

Sources embedded:
  * src/src/renderer/debug_renderer.rs
  * src/editor/src/animation/command/signal.rs
  * src/examples/async.rs
Machine floats of the source (positions, matrices, progress fractions) are
modelled as rationals; u32 values as naturals reduced mod 2^32.
-/

/-- Modelled from the spec: 3-component vector (core::math::vec3::Vec3),
components as rationals standing for the f32 fields. -/
structure Vec3 where
  x : Rat
  y : Rat
  z : Rat
deriving DecidableEq, Repr

/-- Modelled from the spec: 4x4 matrix (core::math::mat4::Mat4), stored as
rows of rationals. Only carried around opaquely by the debug renderer. -/
structure Mat4 where
  rows : List (List Rat)
deriving DecidableEq, Repr

/-- Modelled from the spec: RGBA color with byte channels
(core::color::Color); the renderer only converts it into a packed u32. -/
structure Color where
  r : Nat
  g : Nat
  b : Nat
  a : Nat
deriving DecidableEq, Repr

/-- Modelled from the spec: the Into conversion of Color to u32 used by
the debug renderer; packs the four byte channels into one 32-bit word. -/
def Color.intoU32 (c : Color) : Nat :=
  ((c.a % 256) * 2 ^ 24 + (c.b % 256) * 2 ^ 16 + (c.g % 256) * 2 ^ 8 + c.r % 256) % 2 ^ 32

/-- Modelled from the spec: camera node payload; the debug renderer only
reads its view-projection matrix. -/
structure Camera where
  viewProjectionMatrix : Mat4
deriving DecidableEq, Repr

/-- Camera.get_view_projection_matrix as used by the debug renderer. -/
def Camera.get_view_projection_matrix (c : Camera) : Mat4 :=
  c.viewProjectionMatrix

/-- Modelled from the spec: polymorphic scene node as a tagged union of
variants (Base, Camera, Mesh, ...), each carrying only its own data. -/
inductive Node where
  | base : Node
  | camera : Camera → Node
  | mesh : Node
deriving DecidableEq, Repr

/-- Modelled from the spec: the capability query is_camera of Node, true
exactly on the camera variant. -/
def Node.is_camera : Node → Bool
  | Node.camera _ => true
  | _ => false

/-- Modelled from the spec: the scene graph; its pool of nodes is embedded
as the list of occupied slots in pool order, which is exactly the sequence
produced by linear_iter. -/
structure Graph where
  nodes : List Node
deriving DecidableEq, Repr

/-- Modelled from the spec: a scene owns one graph of nodes. -/
structure Scene where
  graph : Graph
deriving DecidableEq, Repr

/-- Modelled from the spec: the scene container offers iteration over the
active scenes; embedded as the list the iteration yields. -/
structure SceneContainer where
  scenes : List Scene
deriving DecidableEq, Repr

/-- Modelled from the spec: render pass statistics accumulator with
draw-call and triangle counters. -/
structure RenderPassStatistics where
  draw_calls : Nat
  triangles_rendered : Nat
deriving DecidableEq, Repr

/-- Default render pass statistics: all counters zero. -/
def RenderPassStatistics.default : RenderPassStatistics :=
  { draw_calls := 0, triangles_rendered := 0 }

/-- Vertex of the debug renderer (debug_renderer.rs, struct Vertex):
a position and a packed u32 color. -/
structure Vertex where
  position : Vec3
  color : Nat
deriving DecidableEq, Repr

/-- Line segment of the debug renderer (debug_renderer.rs, struct Line). -/
structure Line where
  begin : Vec3
  end_ : Vec3
  color : Color
deriving DecidableEq, Repr

/-- Modelled from the spec: geometry buffer kinds named in
debug_renderer.rs. -/
inductive GeometryBufferKind where
  | dynamicDraw
deriving DecidableEq, Repr

/-- Modelled from the spec: element kinds named in debug_renderer.rs. -/
inductive ElementKind where
  | line
deriving DecidableEq, Repr

/-- Modelled from the spec: vertex attribute kinds named in
debug_renderer.rs. -/
inductive AttributeKind where
  | float3
  | unsignedByte4
deriving DecidableEq, Repr

/-- Modelled from the spec: one vertex attribute definition
(kind, normalization flag). -/
structure AttributeDefinition where
  kind : AttributeKind
  normalized : Bool
deriving DecidableEq, Repr

/-- Modelled from the spec: GPU-resident geometry buffer; holds the
uploaded vertices and index pairs plus its declared attribute layout. -/
structure GeometryBuffer where
  kind : GeometryBufferKind
  elementKind : ElementKind
  attributes : List AttributeDefinition
  vertices : List Vertex
  indices : List (Nat × Nat)
deriving DecidableEq, Repr

/-- GeometryBuffer::new: empty buffer of the given kinds. -/
def GeometryBuffer.new (kind : GeometryBufferKind) (elementKind : ElementKind) : GeometryBuffer :=
  { kind := kind, elementKind := elementKind, attributes := [], vertices := [], indices := [] }

/-- GeometryBuffer::set_vertices: replaces the uploaded vertices. -/
def GeometryBuffer.set_vertices (g : GeometryBuffer) (vs : List Vertex) : GeometryBuffer :=
  { g with vertices := vs }

/-- GeometryBuffer::set_lines: replaces the uploaded index pairs. -/
def GeometryBuffer.set_lines (g : GeometryBuffer) (idxs : List (Nat × Nat)) : GeometryBuffer :=
  { g with indices := idxs }

/-- Modelled from the spec: opaque GPU program handle. -/
structure GpuProgram where
  id : Nat
deriving DecidableEq, Repr

/-- Modelled from the spec: opaque uniform location handle. -/
structure UniformLocation where
  id : Nat
deriving DecidableEq, Repr

/-- Modelled from the spec: renderer error values (error::RendererError);
constructors cover the failure sources named in debug_renderer.rs. -/
inductive RendererError where
  | shaderCompilationFailed (msg : String)
  | unableToFindUniform (name : String)
  | invalidAttributeDescription
  | interiorNul
deriving DecidableEq, Repr

/-- DebugShader (debug_renderer.rs): compiled program plus the resolved
worldViewProjection uniform location. -/
structure DebugShader where
  program : GpuProgram
  wvp_matrix : UniformLocation
deriving DecidableEq, Repr

/-- DebugRenderer state (debug_renderer.rs): GPU geometry buffer, retained
line list, staging vertex and index buffers, and the shader. -/
structure DebugRenderer where
  geometry : GeometryBuffer
  lines : List Line
  vertices : List Vertex
  line_indices : List (Nat × Nat)
  shader : DebugShader
deriving DecidableEq, Repr

/-- DebugRenderer::add_line: appends one line to the retained list. -/
def DebugRenderer.add_line (r : DebugRenderer) (line : Line) : DebugRenderer :=
  { r with lines := r.lines ++ [line] }

/-- DebugRenderer::clear_lines: empties the retained list. -/
def DebugRenderer.clear_lines (r : DebugRenderer) : DebugRenderer :=
  { r with lines := [] }

/-- Modelled from the spec: the OpenGL state cells the debug render pass
touches, treated as process-wide state passed explicitly. -/
structure GlState where
  lineWidth : Rat
  stencilTest : Bool
  colorMask : Bool × Bool × Bool × Bool
  depthTest : Bool
  depthMask : Bool
  blend : Bool
  cullFace : Bool
  boundProgram : Option GpuProgram
deriving DecidableEq, Repr

/-- The unsafe block of DebugRenderer::render before the scene loop:
line width 2, stencil off, full color mask, depth test on, depth write
off, blending off, culling off. -/
def setDebugRenderState (gl : GlState) : GlState :=
  { gl with
    lineWidth := 2
    stencilTest := false
    colorMask := (true, true, true, true)
    depthTest := true
    depthMask := false
    blend := false
    cullFace := false }

/-- One draw call issued by the debug render pass: the bound
view-projection matrix, the buffer contents drawn, and the GL state in
effect at the moment of the draw. -/
structure DrawEvent where
  wvp : Mat4
  vertices : List Vertex
  indices : List (Nat × Nat)
  stateAtDraw : GlState
deriving DecidableEq, Repr

/-- The two staging vertices a line expands to: begin position then end
position, both with the packed line color. -/
def lineVertexPair (l : Line) : List Vertex :=
  [{ position := l.begin, color := l.color.intoU32 },
   { position := l.end_, color := l.color.intoU32 }]

/-- The staging-buffer filling loop of DebugRenderer::render: walks the
lines, pushing two vertices and one index pair per line, with the running
vertex counter i advancing by two. -/
def fillBuffers : List Line → List Vertex → List (Nat × Nat) → Nat → List Vertex × List (Nat × Nat)
  | [], vs, idxs, _ => (vs, idxs)
  | l :: rest, vs, idxs, i =>
      fillBuffers rest (vs ++ lineVertexPair l) (idxs ++ [(i, i + 1)]) (i + 2)

/-- The camera lookup of DebugRenderer::render for one scene: linear_iter
finds the first node satisfying is_camera, then the camera payload is
extracted by pattern match, each failure continuing to the next scene. -/
def sceneCamera (s : Scene) : Option Camera :=
  match s.graph.nodes.find? Node.is_camera with
  | none => none
  | some n =>
      match n with
      | Node.camera c => some c
      | _ => none

/-- The scene loop of DebugRenderer::render: per scene with a camera, bind
its view-projection matrix, draw the shared geometry buffer and count one
draw call; scenes without a camera are skipped. Returns the draw events in
order and the number of draw calls. -/
def renderScenes (gb : GeometryBuffer) (gl : GlState) : List Scene → List DrawEvent × Nat
  | [] => ([], 0)
  | s :: rest =>
      match sceneCamera s with
      | some c =>
          let tail := renderScenes gb gl rest
          ({ wvp := c.get_view_projection_matrix
             vertices := gb.vertices
             indices := gb.indices
             stateAtDraw := gl } :: tail.1, tail.2 + 1)
      | none => renderScenes gb gl rest

/-- Result of one call of DebugRenderer::render: the renderer after the
pass, the returned statistics, the final GL state and the draw calls
issued. -/
structure RenderOutput where
  renderer : DebugRenderer
  statistics : RenderPassStatistics
  glState : GlState
  drawEvents : List DrawEvent
deriving DecidableEq, Repr

/-- DebugRenderer::render (debug_renderer.rs lines 101-157): bind the
shader, clear and refill the staging buffers from the retained lines,
upload them, set the fixed render state, issue one draw per scene with a
camera while counting draw calls from default statistics, then re-enable
the depth mask and return the statistics. -/
def DebugRenderer.render (r : DebugRenderer) (scenes : SceneContainer) (gl : GlState) : RenderOutput :=
  let statistics := RenderPassStatistics.default
  let gl := { gl with boundProgram := some r.shader.program }
  let staged := fillBuffers r.lines [] [] 0
  let geometry := (r.geometry.set_vertices staged.1).set_lines staged.2
  let gl := setDebugRenderState gl
  let loop := renderScenes geometry gl scenes.scenes
  let gl := { gl with depthMask := true }
  { renderer := { r with geometry := geometry, vertices := staged.1, line_indices := staged.2 }
    statistics := { statistics with draw_calls := statistics.draw_calls + loop.2 }
    glState := gl
    drawEvents := loop.1 }

/-- Name strings appearing in debug_renderer.rs. -/
def debugShaderName : String := "DebugShader"

/-- Name of the uniform resolved by DebugShader::new. -/
def wvpUniformName : String := "worldViewProjection"

/-- The attribute layout declared by DebugRenderer::new. -/
def debugAttributeDefs : List AttributeDefinition :=
  [{ kind := AttributeKind.float3, normalized := false },
   { kind := AttributeKind.unsignedByte4, normalized := true }]

/-- Modelled from the spec: the GPU device operations DebugRenderer::new
and DebugShader::new invoke fallibly; the spec directs that core logic
accept the drawing device as a passed-in handle, so each fallible GPU call
is a field returning Except. -/
structure GpuDevice where
  fromSource : String → Except RendererError GpuProgram
  getUniformLocation : GpuProgram → String → Except RendererError UniformLocation
  describeAttributes : List AttributeDefinition → Except RendererError Unit

/-- DebugShader::new (debug_renderer.rs lines 50-58): compile the program
from the debug shader sources, then resolve the worldViewProjection
uniform; every failure propagates as Err. -/
def DebugShader.new (dev : GpuDevice) : Except RendererError DebugShader :=
  match dev.fromSource debugShaderName with
  | Except.error e => Except.error e
  | Except.ok program =>
      match dev.getUniformLocation program wvpUniformName with
      | Except.error e => Except.error e
      | Except.ok wvp => Except.ok { program := program, wvp_matrix := wvp }

/-- DebugRenderer::new (debug_renderer.rs lines 76-91): create the
geometry buffer, describe its attributes, build the debug shader; every
failure propagates as Err and no renderer value is constructed. -/
def DebugRenderer.new (dev : GpuDevice) : Except RendererError DebugRenderer :=
  let geometry := GeometryBuffer.new GeometryBufferKind.dynamicDraw ElementKind.line
  match dev.describeAttributes debugAttributeDefs with
  | Except.error e => Except.error e
  | Except.ok _ =>
      match DebugShader.new dev with
      | Except.error e => Except.error e
      | Except.ok shader =>
          Except.ok { geometry := { geometry with attributes := debugAttributeDefs }
                      shader := shader
                      lines := []
                      vertices := []
                      line_indices := [] }

/-- Boolean test for the error case of Except. -/
def isErr {ε α : Type} : Except ε α → Bool
  | Except.error _ => true
  | Except.ok _ => false

/-- AnimationSignal (spec data model): unique id, time, name. The Uuid id
is embedded as a natural number. -/
structure AnimationSignal where
  id : Nat
  time : Rat
  name : String
deriving DecidableEq, Repr

/-- Outcome of running code that may panic: either a value or a panic. -/
inductive PanicOr (α : Type) where
  | ok : α → PanicOr α
  | panicked : PanicOr α
deriving DecidableEq, Repr

/-- The signal lookup inside make_animation_signal_property_command
(signal.rs lines 22-28): a linear scan of the signals of the addressed
animation for the one with the given id. -/
def findSignalById (signals : List AnimationSignal) (id : Nat) : Option AnimationSignal :=
  signals.find? (fun s => s.id == id)

/-- The fetch step of every command generated by
make_animation_signal_property_command: the lookup result is unwrapped, so
a missing id is a panic, not a recovered failure. -/
def fetchSignalForCommand (signals : List AnimationSignal) (id : Nat) : PanicOr AnimationSignal :=
  match findSignalById signals id with
  | some s => PanicOr.ok s
  | none => PanicOr.panicked

/-- Modelled from the spec: generation-checked handle (index, generation)
into a pool. -/
structure Handle where
  index : Nat
  generation : Nat
deriving DecidableEq, Repr

/-- GameScene (async.rs): the complete product of the loader thread. -/
structure GameScene where
  scene : Scene
  model_handle : Handle
  walk_animation : Handle
deriving DecidableEq, Repr

/-- SceneLoadContext (async.rs): the mutex-guarded shared slot; data is
the constructed scene or none, plus a status message and a progress
fraction (f32 in the source, embedded as a rational). -/
structure SceneLoadContext where
  data : Option GameScene
  message : String
  progress : Rat
deriving DecidableEq, Repr

/-- SceneLoadContext::report_progress (async.rs lines 130-134): writes the
progress fraction and the status message. -/
def SceneLoadContext.report_progress (c : SceneLoadContext) (progress : Rat) (message : String) : SceneLoadContext :=
  { c with progress := progress, message := message }

/-- One lock-protected operation the loader thread performs on the shared
context; the mutex makes each operation atomic as seen by the polling
main thread. -/
inductive LoaderOp where
  | reportProgress (progress : Rat) (message : String)
  | storeData (gs : GameScene)
deriving DecidableEq, Repr

/-- Applies one loader operation to the shared context. -/
def applyLoaderOp (c : SceneLoadContext) : LoaderOp → SceneLoadContext
  | LoaderOp.reportProgress p m => c.report_progress p m
  | LoaderOp.storeData gs => { c with data := some gs }

/-- The initial shared context built by create_scene_async
(async.rs lines 139-143). -/
def initialLoadContext : SceneLoadContext :=
  { data := none, message := "Starting..", progress := 0 }

/-- The lock-protected operations of the loader thread spawned by
create_scene_async (async.rs lines 147-212), in program order; gs is the
complete GameScene the thread has finished building before the single
final write that stores it. -/
def createSceneAsyncOps (gs : GameScene) : List LoaderOp :=
  [LoaderOp.reportProgress 0 "Creating camera...",
   LoaderOp.reportProgress ((33 : Rat) / 100) "Loading model...",
   LoaderOp.reportProgress ((66 : Rat) / 100) "Loading animation...",
   LoaderOp.reportProgress 1 "Done",
   LoaderOp.storeData gs]

/-- All states the shared context passes through when the given operations
run atomically from the given state: the trace the polling main thread
samples from under try_lock. -/
def contextStates (c : SceneLoadContext) : List LoaderOp → List SceneLoadContext
  | [] => [c]
  | op :: rest => c :: contextStates (applyLoaderOp c op) rest

/-- The full trace of the shared load context over the loading sequence of
create_scene_async. -/
def loadContextTrace (gs : GameScene) : List SceneLoadContext :=
  contextStates initialLoadContext (createSceneAsyncOps gs)

/-- The read-and-take the main thread performs under the lock
(async.rs lines 286-303): observes the data field and empties it. -/
def mainThreadTake (c : SceneLoadContext) : Option GameScene × SceneLoadContext :=
  (c.data, { c with data := none })

/-- Camera used by the concrete evaluation instances. -/
def witnessCamera : Camera := { viewProjectionMatrix := { rows := [[1, 0], [0, 1]] } }

/-- Scene holding one camera node, for concrete evaluation. -/
def witnessCameraScene : Scene := { graph := { nodes := [Node.camera witnessCamera] } }

/-- Scene whose graph holds no camera variant, for concrete evaluation. -/
def witnessNoCameraScene : Scene := { graph := { nodes := [Node.base, Node.mesh] } }

/-- Shader value used by the concrete evaluation instances. -/
def witnessShader : DebugShader := { program := { id := 5 }, wvp_matrix := { id := 3 } }

/-- Debug renderer with empty line list, for concrete evaluation. -/
def witnessRenderer : DebugRenderer :=
  { geometry := GeometryBuffer.new GeometryBufferKind.dynamicDraw ElementKind.line
    lines := []
    vertices := []
    line_indices := []
    shader := witnessShader }

/-- GL state contrary to the debug pass configuration in every touched
cell, for concrete evaluation of state independence. -/
def witnessGl : GlState :=
  { lineWidth := 1
    stencilTest := true
    colorMask := (false, false, false, false)
    depthTest := false
    depthMask := true
    blend := true
    cullFace := true
    boundProgram := none }

/-- The single draw event produced by rendering the one-camera container
from the witness renderer. -/
def witnessDrawEvent : DrawEvent :=
  { wvp := witnessCamera.viewProjectionMatrix
    vertices := []
    indices := []
    stateAtDraw := setDebugRenderState { witnessGl with boundProgram := some witnessShader.program } }

/-- Message carried by the failing GPU device below. -/
def compileFailMessage : String := "shader source rejected"

/-- GPU device whose shader compilation fails, for concrete evaluation. -/
def witnessFailDev : GpuDevice :=
  { fromSource := fun _ => Except.error (RendererError.shaderCompilationFailed compileFailMessage)
    getUniformLocation := fun _ _ => Except.ok { id := 0 }
    describeAttributes := fun _ => Except.ok () }

/-- Complete game scene value, for concrete evaluation of the loader. -/
def witnessGameScene : GameScene :=
  { scene := witnessCameraScene
    model_handle := { index := 1, generation := 1 }
    walk_animation := { index := 2, generation := 1 } }

/-- The final state of the load context after the whole loading sequence,
for concrete evaluation. -/
def witnessFinalContext : SceneLoadContext :=
  { data := some witnessGameScene, message := "Done", progress := 1 }

/-- Closed form of the staging-buffer filling loop: appends the expansion
of every line and the index pairs shifted by the incoming counter. -/
theorem fillBuffers_eq (lines : List Line) :
    ∀ (vs : List Vertex) (idxs : List (Nat × Nat)) (i : Nat),
      fillBuffers lines vs idxs i =
        (vs ++ lines.flatMap lineVertexPair,
         idxs ++ (List.range lines.length).map (fun k => (i + 2 * k, i + 2 * k + 1))) := by
  induction lines with
  | nil =>
      intro vs idxs i
      simp [fillBuffers]
  | cons l rest ih =>
      intro vs idxs i
      rw [fillBuffers, ih]
      refine Prod.ext ?_ ?_
      · simp [List.flatMap_cons, List.append_assoc]
      · simp only [List.length_cons, List.range_succ_eq_map, List.map_cons, List.map_map,
          List.append_assoc, List.singleton_append]
        refine congrArg (fun t => idxs ++ t) ?_
        refine congrArg₂ (fun a t => List.cons a t) (by simp) ?_
        apply List.map_congr_left
        intro a _
        simp [Function.comp, Prod.ext_iff]
        omega

/-- The expansion of a line list into staging vertices has twice its
length. -/
theorem length_flatMap_lineVertexPair (lines : List Line) :
    (lines.flatMap lineVertexPair).length = 2 * lines.length := by
  induction lines with
  | nil => rfl
  | cons l rest ih =>
      simp only [List.flatMap_cons, List.length_append, ih, lineVertexPair, List.length_cons]
      simp
      omega

/-- The camera lookup succeeds exactly on scenes whose graph holds a
camera-variant node. -/
theorem sceneCamera_isSome (s : Scene) :
    (sceneCamera s).isSome = s.graph.nodes.any Node.is_camera := by
  unfold sceneCamera
  cases h : s.graph.nodes.find? Node.is_camera with
  | none =>
      have hall := List.find?_eq_none.mp h
      simp only [Option.isSome_none]
      symm
      simp only [List.any_eq_false]
      intro x hx
      exact hall x hx
  | some n =>
      have hp : Node.is_camera n = true := List.find?_some h
      have hm : n ∈ s.graph.nodes := List.mem_of_find?_eq_some h
      cases n with
      | camera c =>
          simp only [Option.isSome_some]
          symm
          simp only [List.any_eq_true]
          exact ⟨Node.camera c, hm, hp⟩
      | base => simp [Node.is_camera] at hp
      | mesh => simp [Node.is_camera] at hp

/-- The scene loop issues exactly one draw call per scene whose camera
lookup succeeds. -/
theorem renderScenes_count (gb : GeometryBuffer) (gl : GlState) (scenes : List Scene) :
    (renderScenes gb gl scenes).2 = scenes.countP (fun s => (sceneCamera s).isSome) := by
  induction scenes with
  | nil => rfl
  | cons s rest ih =>
      rw [renderScenes]
      cases h : sceneCamera s with
      | some c => simp [h, ih, List.countP_cons]
      | none => simp [h, ih, List.countP_cons]

/-- Every draw event of the scene loop carries the GL state the loop was
entered with. -/
theorem renderScenes_stateAtDraw (gb : GeometryBuffer) (gl : GlState) (scenes : List Scene)
    (ev : DrawEvent) (h : ev ∈ (renderScenes gb gl scenes).1) :
    ev.stateAtDraw = gl := by
  induction scenes with
  | nil => simp [renderScenes] at h
  | cons s rest ih =>
      rw [renderScenes] at h
      cases hc : sceneCamera s with
      | some c =>
          rw [hc] at h
          simp only [List.mem_cons] at h
          cases h with
          | inl he => rw [he]
          | inr he => exact ih he
      | none =>
          rw [hc] at h
          exact ih h

/-- A scene whose camera lookup fails is dropped from the scene loop with
no effect on the events or the count. -/
theorem renderScenes_skip (gb : GeometryBuffer) (gl : GlState) (s : Scene)
    (hs : sceneCamera s = none) (pre post : List Scene) :
    renderScenes gb gl (pre ++ s :: post) = renderScenes gb gl (pre ++ post) := by
  induction pre with
  | nil =>
      rw [List.nil_append, List.nil_append, renderScenes, hs]
  | cons q pre ih =>
      rw [List.cons_append, List.cons_append, renderScenes, renderScenes]
      cases hq : sceneCamera q with
      | some c => simp [ih]
      | none => exact ih

/-- C1: every call of DebugRenderer::render over a scene container returns
statistics whose draw_calls counter equals exactly the number of scenes
containing a camera-variant node, starting from default statistics and
counting each such scene once, independently of the stored lines. -/
theorem c1_draw_calls_one_per_camera_scene (r : DebugRenderer) (scenes : SceneContainer) (gl : GlState) :
    (r.render scenes gl).statistics.draw_calls =
      scenes.scenes.countP (fun s => s.graph.nodes.any Node.is_camera) := by
  simp [DebugRenderer.render, RenderPassStatistics.default, renderScenes_count, sceneCamera_isSome]

/-- C3: every call of DebugRenderer::render refills the cleared staging
buffers so that, before upload, line k contributes vertices 2k and 2k+1
holding its begin and end positions with its packed color and the index
pair (2k, 2k+1); the staging buffers hold exactly 2N vertices and N index
pairs for N stored lines, independently of their prior content, and the
same data is uploaded to the geometry buffer. -/
theorem c3_staging_expansion (r : DebugRenderer) (scenes : SceneContainer) (gl : GlState) :
    (r.render scenes gl).renderer.vertices = r.lines.flatMap lineVertexPair ∧
    (r.render scenes gl).renderer.line_indices =
      (List.range r.lines.length).map (fun k => (2 * k, 2 * k + 1)) ∧
    (r.render scenes gl).renderer.vertices.length = 2 * r.lines.length ∧
    (r.render scenes gl).renderer.line_indices.length = r.lines.length ∧
    (r.render scenes gl).renderer.geometry.vertices = r.lines.flatMap lineVertexPair ∧
    (r.render scenes gl).renderer.geometry.indices =
      (List.range r.lines.length).map (fun k => (2 * k, 2 * k + 1)) := by
  have hfill := fillBuffers_eq r.lines [] [] 0
  have hv : (fillBuffers r.lines [] [] 0).1 = r.lines.flatMap lineVertexPair := by
    rw [hfill]; simp
  have hi : (fillBuffers r.lines [] [] 0).2 =
      (List.range r.lines.length).map (fun k => (2 * k, 2 * k + 1)) := by
    rw [hfill]; simp
  have hv2 : (r.render scenes gl).renderer.vertices = r.lines.flatMap lineVertexPair := by
    simp [DebugRenderer.render, hv]
  have hi2 : (r.render scenes gl).renderer.line_indices =
      (List.range r.lines.length).map (fun k => (2 * k, 2 * k + 1)) := by
    simp [DebugRenderer.render, hi]
  refine ⟨hv2, hi2, ?_, ?_, ?_, ?_⟩
  · rw [hv2, length_flatMap_lineVertexPair]
  · rw [hi2]
    simp
  · simp [DebugRenderer.render, GeometryBuffer.set_vertices, GeometryBuffer.set_lines, hv]
  · simp [DebugRenderer.render, GeometryBuffer.set_vertices, GeometryBuffer.set_lines, hi]

/-- C4: every draw call issued by DebugRenderer::render happens under the
fixed render state set by the pass itself - depth test on, depth write
off, blending off, face culling off, line width 2, stencil off, full
color mask - whatever state the previous pass left behind. -/
theorem c4_fixed_render_state_at_draw (r : DebugRenderer) (scenes : SceneContainer) (gl : GlState)
    (ev : DrawEvent) (h : ev ∈ (r.render scenes gl).drawEvents) :
    ev.stateAtDraw.depthTest = true ∧ ev.stateAtDraw.depthMask = false ∧
    ev.stateAtDraw.blend = false ∧ ev.stateAtDraw.cullFace = false ∧
    ev.stateAtDraw.lineWidth = 2 ∧ ev.stateAtDraw.stencilTest = false ∧
    ev.stateAtDraw.colorMask = (true, true, true, true) := by
  simp only [DebugRenderer.render] at h
  have := renderScenes_stateAtDraw _ _ _ ev h
  rw [this]
  simp [setDebugRenderState]

/-- Concrete instance for c4_fixed_render_state_at_draw: rendering one
camera scene from a GL state contrary in every cell still draws under the
fixed configuration. -/
theorem c4_witness :
    witnessDrawEvent ∈ (witnessRenderer.render { scenes := [witnessCameraScene] } witnessGl).drawEvents ∧
    (witnessDrawEvent.stateAtDraw.depthTest = true ∧ witnessDrawEvent.stateAtDraw.depthMask = false ∧
     witnessDrawEvent.stateAtDraw.blend = false ∧ witnessDrawEvent.stateAtDraw.cullFace = false ∧
     witnessDrawEvent.stateAtDraw.lineWidth = 2 ∧ witnessDrawEvent.stateAtDraw.stencilTest = false ∧
     witnessDrawEvent.stateAtDraw.colorMask = (true, true, true, true)) :=
  ⟨by decide, c4_fixed_render_state_at_draw witnessRenderer { scenes := [witnessCameraScene] } witnessGl
      witnessDrawEvent (by decide)⟩

/-- C5: a scene whose graph holds no camera-variant node is skipped by
DebugRenderer::render - no draw call, no statistics contribution - and the
pass continues over the remaining scenes exactly as if the scene were
absent; render still returns normally. -/
theorem c5_no_camera_scene_skipped (r : DebugRenderer) (gl : GlState) (pre post : List Scene)
    (s : Scene) (h : s.graph.nodes.find? Node.is_camera = none) :
    r.render { scenes := pre ++ s :: post } gl = r.render { scenes := pre ++ post } gl := by
  have hs : sceneCamera s = none := by
    unfold sceneCamera
    rw [h]
  simp only [DebugRenderer.render]
  rw [renderScenes_skip _ _ s hs pre post]

/-- Concrete instance for c5_no_camera_scene_skipped: a container holding
only a camera-free scene renders identically to the empty container. -/
theorem c5_witness :
    witnessNoCameraScene.graph.nodes.find? Node.is_camera = none ∧
    witnessRenderer.render { scenes := [witnessNoCameraScene] } witnessGl =
      witnessRenderer.render { scenes := [] } witnessGl :=
  ⟨by decide, c5_no_camera_scene_skipped witnessRenderer witnessGl [] [] witnessNoCameraScene (by decide)⟩

/-- C9: DebugRenderer::render leaves the stored line list untouched, so
the same lines are drawn again on the next pass; clear_lines empties the
list and add_line appends exactly one element. -/
theorem c9_lines_unmodified (r : DebugRenderer) (scenes : SceneContainer) (gl : GlState) (l : Line) :
    (r.render scenes gl).renderer.lines = r.lines ∧
    (r.clear_lines).lines = [] ∧
    (r.add_line l).lines = r.lines ++ [l] :=
  ⟨rfl, rfl, rfl⟩

/-- C10: DebugRenderer::render re-enables the depth-write mask before
returning, on every path, including an empty line list and a container
with no camera scene. -/
theorem c10_depth_mask_restored (r : DebugRenderer) (scenes : SceneContainer) (gl : GlState) :
    (r.render scenes gl).glState.depthMask = true := rfl

/-- A shader compilation failure makes DebugShader::new return Err. -/
theorem shaderNew_error_of_fromSource (dev : GpuDevice)
    (h : isErr (dev.fromSource debugShaderName) = true) :
    isErr (DebugShader.new dev) = true := by
  unfold DebugShader.new
  split
  next e heq => rfl
  next p heq =>
    rw [heq] at h
    simp [isErr] at h

/-- A failed uniform resolution makes DebugShader::new return Err. -/
theorem shaderNew_error_of_uniform (dev : GpuDevice)
    (h : ∀ p, dev.fromSource debugShaderName = Except.ok p →
        isErr (dev.getUniformLocation p wvpUniformName) = true) :
    isErr (DebugShader.new dev) = true := by
  unfold DebugShader.new
  split
  next e heq => rfl
  next p heq =>
    split
    next e heq2 => rfl
    next wvp heq2 =>
      have hx := h p heq
      rw [heq2] at hx
      simp [isErr] at hx

/-- C6: when compiling the debug shader sources, resolving the
worldViewProjection uniform or describing the vertex attributes fails,
DebugRenderer::new returns Err and no renderer value is constructed, and
a compilation failure likewise makes DebugShader::new return Err; the
failure surfaces at construction time. -/
theorem c6_construction_error_surfaces (dev : GpuDevice)
    (h : isErr (dev.describeAttributes debugAttributeDefs) = true ∨
         isErr (dev.fromSource debugShaderName) = true ∨
         (∀ p, dev.fromSource debugShaderName = Except.ok p →
            isErr (dev.getUniformLocation p wvpUniformName) = true)) :
    isErr (DebugRenderer.new dev) = true ∧
    (isErr (dev.fromSource debugShaderName) = true → isErr (DebugShader.new dev) = true) := by
  refine ⟨?_, fun hf => shaderNew_error_of_fromSource dev hf⟩
  simp only [DebugRenderer.new]
  split
  next e heq => rfl
  next u heq =>
    split
    next e heq2 => rfl
    next s heq2 =>
      exfalso
      rcases h with h | h | h
      · rw [heq] at h
        simp [isErr] at h
      · have := shaderNew_error_of_fromSource dev h
        rw [heq2] at this
        simp [isErr] at this
      · have := shaderNew_error_of_uniform dev h
        rw [heq2] at this
        simp [isErr] at this

/-- Concrete instance for c6_construction_error_surfaces: a device whose
shader compilation fails makes DebugRenderer::new return Err. -/
theorem c6_witness :
    isErr (witnessFailDev.fromSource debugShaderName) = true ∧
    isErr (DebugRenderer.new witnessFailDev) = true ∧
    isErr (DebugShader.new witnessFailDev) = true :=
  ⟨rfl,
   (c6_construction_error_surfaces witnessFailDev (Or.inr (Or.inl rfl))).1,
   (c6_construction_error_surfaces witnessFailDev (Or.inr (Or.inl rfl))).2 rfl⟩

/-- C2 as stated is false: the generated get/set-property command unwraps
the signal lookup, so a missing signal id panics instead of recovering;
at the concrete input of an empty signal list and id 0 the lookup is none
and the fetch step panics. -/
theorem c2_counterexample :
    findSignalById [] 0 = none ∧ fetchSignalForCommand [] 0 = PanicOr.panicked :=
  ⟨rfl, rfl⟩

/-- C2 (amended): for every get/set-property command on an animation
signal, when the given signal id is not present among the addressed
animation signals, the command panics on the unwrapped lookup rather than
recovering by returning none or skipping. -/
theorem c2_missing_signal_panics (signals : List AnimationSignal) (id : Nat)
    (h : findSignalById signals id = none) :
    fetchSignalForCommand signals id = PanicOr.panicked := by
  unfold fetchSignalForCommand
  rw [h]

/-- Concrete instance for c2_missing_signal_panics. -/
theorem c2_witness :
    findSignalById [] 7 = none ∧ fetchSignalForCommand [] 7 = PanicOr.panicked :=
  ⟨rfl, c2_missing_signal_panics [] 7 rfl⟩

/-- C7: every progress value the loader thread writes through
report_progress lies in the closed unit interval, and after every
lock-protected operation of the loading sequence the progress field of
the shared context lies in the closed unit interval. -/
theorem c7_progress_within_unit_interval (gs : GameScene) (c : SceneLoadContext)
    (h : c ∈ loadContextTrace gs) :
    (∀ p m, LoaderOp.reportProgress p m ∈ createSceneAsyncOps gs → 0 ≤ p ∧ p ≤ 1) ∧
    (0 ≤ c.progress ∧ c.progress ≤ 1) := by
  constructor
  · intro p m hpm
    simp [createSceneAsyncOps] at hpm
    rcases hpm with ⟨hp, hm⟩ | ⟨hp, hm⟩ | ⟨hp, hm⟩ | ⟨hp, hm⟩ <;> subst hp <;> norm_num
  · simp [loadContextTrace, createSceneAsyncOps, contextStates, applyLoaderOp,
      initialLoadContext, SceneLoadContext.report_progress] at h
    rcases h with rfl | rfl | rfl | rfl | rfl | rfl <;> norm_num

/-- Concrete instance for c7_progress_within_unit_interval at the initial
context state. -/
theorem c7_witness :
    initialLoadContext ∈ loadContextTrace witnessGameScene ∧
    ((∀ p m, LoaderOp.reportProgress p m ∈ createSceneAsyncOps witnessGameScene → 0 ≤ p ∧ p ≤ 1) ∧
     (0 ≤ initialLoadContext.progress ∧ initialLoadContext.progress ≤ 1)) :=
  ⟨by decide, c7_progress_within_unit_interval witnessGameScene initialLoadContext (by decide)⟩

/-- C8: whatever state of the shared load context the main thread samples
under try_lock, the data field it reads and takes is either none or the
complete GameScene stored by the single final write of the loader thread;
no partially constructed scene is ever observed. -/
theorem c8_observed_data_none_or_complete (gs : GameScene) (c : SceneLoadContext)
    (h : c ∈ loadContextTrace gs) :
    (mainThreadTake c).1 = none ∨ (mainThreadTake c).1 = some gs := by
  simp only [mainThreadTake]
  simp [loadContextTrace, createSceneAsyncOps, contextStates, applyLoaderOp,
    initialLoadContext, SceneLoadContext.report_progress] at h
  rcases h with rfl | rfl | rfl | rfl | rfl | rfl <;> simp

/-- Concrete instance for c8_observed_data_none_or_complete at the final
context state. -/
theorem c8_witness :
    witnessFinalContext ∈ loadContextTrace witnessGameScene ∧
    ((mainThreadTake witnessFinalContext).1 = none ∨
     (mainThreadTake witnessFinalContext).1 = some witnessGameScene) :=
  ⟨by decide, c8_observed_data_none_or_complete witnessGameScene witnessFinalContext (by decide)⟩
